import Mathlib

/-!
Shallow embedding of the CRI QoS/class-resource resolution layer of
`pkg/cri/server` (files `qos_resources_linux.go`, `class_resources_linux.go`,
`rdt_linux.go`, `blockio_linux.go`).

Modelling conventions:
* Go maps are association lists (`List (String × String)` etc.).  The list
  order models Go's unspecified map-range order; Go maps guarantee unique keys,
  which appears as a `Nodup` hypothesis where it matters.
* External collaborators (`tasks.RdtEnabled`, `rdt.GetClass`,
  `blockio.GetClasses`, the goresctrl annotation parsers,
  `blockio.OciLinuxBlockIO`) are process-wide state and library functions; they
  are modelled as fields of an explicit environment `Env`.
* Fallible Go functions returning `(T, error)` become `Except String T`.
* `fmt.Errorf` format strings are transcribed literally; `%q` is Go quoting,
  modelled by `goQuote` (no escaping is needed for the strings in scope).
-/

namespace CriQoS

/-- Go `%q` formatting of a string (no special characters in scope). -/
def goQuote (s : String) : String := "\"" ++ s ++ "\""

/-- Value of the CRI API constant `runtime.QoSResourceRdt` / `runtime.ClassResourceRdt`. -/
def QoSResourceRdt : String := "rdt"

/-- Value of the CRI API constant `runtime.QoSResourceBlockio` / `runtime.ClassResourceBlockio`. -/
def QoSResourceBlockio : String := "blockio"

/-- `QoSResourceNet = "net"` from qos_resources_linux.go. -/
def QoSResourceNet : String := "net"

/-- A Go `map[string]string` as an association list (range order = list order). -/
abbrev StrMap := List (String × String)

/-- Stand-in for `runtimespec.LinuxBlockIO`, the opaque descriptor produced by
the external `blockio.OciLinuxBlockIO` collaborator. -/
structure LinuxBlockIo where
  payload : Nat
deriving DecidableEq, Repr

/-- Type of the goresctrl `ContainerClassFromAnnotations` collaborators:
container name, container annotations, pod annotations to class name. -/
abbrev AnnotParser := String → StrMap → StrMap → Except String String

/-- Process-wide state and external collaborators used by the resolution layer:
`tasks.RdtEnabled` / `tasks.BlockIOEnabled`, the configured class lists
(`tasks.GetRdtClasses` / `rdt.GetClass` domain, `blockio.GetClasses`), the two
legacy-annotation parsers, `blockio.OciLinuxBlockIO`, and the two
`IgnoreRdtNotEnabledErrors` / `IgnoreBlockIONotEnabledErrors` policy flags of
`c.config.ContainerdConfig`. -/
structure Env where
  rdtEnabled : Bool
  blockioEnabled : Bool
  rdtClasses : List String
  blockioClasses : List String
  rdtAnnot : AnnotParser
  blockioAnnot : AnnotParser
  blockioOci : String → Except String LinuxBlockIo
  ignoreRdtNotEnabledErrors : Bool
  ignoreBlockIONotEnabledErrors : Bool

/-- The parts of `runtime.ContainerConfig` read by this layer:
`GetMetadata().GetName()`, `GetClassResources().GetClasses()`,
`GetQosResources().GetClasses()`, and `Annotations`. -/
structure ContainerConfig where
  name : String
  classResources : StrMap
  qosResources : StrMap
  annotations : StrMap

/-- The parts of `runtime.PodSandboxConfig` read by this layer. -/
structure PodSandboxConfig where
  qosResources : StrMap
  annotations : StrMap

/-- Error of rdt_linux.go line 48 (`"RDT disabled, refusing to set RDT class of container %q to %q"`). -/
def rdtDisabledMsg (containerName cls : String) : String :=
  "RDT disabled, refusing to set RDT class of container " ++ goQuote containerName ++
    " to " ++ goQuote cls

/-- Error of rdt_linux.go line 52 (`"invalid RDT class %q: not specified in configuration"`). -/
def rdtInvalidMsg (cls : String) : String :=
  "invalid RDT class " ++ goQuote cls ++ ": not specified in configuration"

/-- Error of blockio_linux.go line 51. -/
def blockioDisabledMsg (containerName cls : String) : String :=
  "blockio disabled, refusing to set blockio class of container " ++ goQuote containerName ++
    " to " ++ goQuote cls

/-- Error of blockio_linux.go line 54. -/
def blockioInvalidMsg (cls : String) : String :=
  "invalid blockio class " ++ goQuote cls ++ ": not specified in configuration"

/-- `classExists` of blockio_linux.go: linear scan of `blockio.GetClasses()`. -/
def classExists (env : Env) (cls : String) : Bool :=
  env.blockioClasses.any (fun c => cls == c)

/-- The common tail of `getContainerRdtClass` (rdt_linux.go lines 45-56): for a
non-empty candidate, check `tasks.RdtEnabled()` first, then `rdt.GetClass`. -/
def rdtClassCheck (env : Env) (containerName cls : String) : Except String String :=
  if cls == "" then .ok cls
  else if !env.rdtEnabled then .error (rdtDisabledMsg containerName cls)
  else if !env.rdtClasses.contains cls then .error (rdtInvalidMsg cls)
  else .ok cls

/-- The common tail of `getContainerBlockioClass` (blockio_linux.go lines 49-56). -/
def blockioClassCheck (env : Env) (containerName cls : String) : Except String String :=
  if cls == "" then .ok cls
  else if !env.blockioEnabled then .error (blockioDisabledMsg containerName cls)
  else if !classExists env cls then .error (blockioInvalidMsg cls)
  else .ok cls

/-- `getContainerRdtClass` of rdt_linux.go: structured assignment from
`config.GetClassResources().GetClasses()[runtime.ClassResourceRdt]`, falling
back to `rdt.ContainerClassFromAnnotations` only when that map has no entry. -/
def getContainerRdtClass (env : Env) (config : ContainerConfig)
    (sandboxConfig : PodSandboxConfig) : Except String String :=
  let containerName := config.name
  match config.classResources.lookup QoSResourceRdt with
  | some cls => rdtClassCheck env containerName cls
  | none =>
    match env.rdtAnnot containerName config.annotations sandboxConfig.annotations with
    | .error e => .error e
    | .ok cls => rdtClassCheck env containerName cls

/-- `getContainerBlockioClass` of blockio_linux.go: structured assignment from
`config.GetQosResources().GetClasses()[runtime.QoSResourceBlockio]`, falling
back to `blockio.ContainerClassFromAnnotations` only when that map has no entry. -/
def getContainerBlockioClass (env : Env) (config : ContainerConfig)
    (sandboxConfig : PodSandboxConfig) : Except String String :=
  let containerName := config.name
  match config.qosResources.lookup QoSResourceBlockio with
  | some cls => blockioClassCheck env containerName cls
  | none =>
    match env.blockioAnnot containerName config.annotations sandboxConfig.annotations with
    | .error e => .error e
    | .ok cls => blockioClassCheck env containerName cls

/-- One element of the OCI `SpecOpts` list produced for a container:
`oci.WithRdt(cls, "", "")` or `oci.WithBlockIO(descriptor)`. -/
inductive SpecOpt where
  | withRdt (cls l3schema mbschema : String)
  | withBlockIo (bio : LinuxBlockIo)
deriving DecidableEq, Repr

/-- A `runtime.QoSResourceClassInfo`. -/
structure QoSResourceClassInfo where
  name : String
  capacity : Nat
deriving DecidableEq, Repr

/-- A `runtime.QoSResourceInfo`. -/
structure QoSResourceInfo where
  name : String
  mutable : Bool
  classes : List QoSResourceClassInfo
deriving DecidableEq, Repr

/-- Indexed helper for `createClassInfos`: `out[i] = {Name: name, Capacity: uint64(i)}`. -/
def createClassInfosFrom (i : Nat) : List String → List QoSResourceClassInfo
  | [] => []
  | n :: rest => ⟨n, i⟩ :: createClassInfosFrom (i + 1) rest

/-- `createClassInfos` of qos_resources_linux.go lines 237-243: class infos whose
capacity is the zero-based position of the name in the argument list. -/
def createClassInfos (names : List String) : List QoSResourceClassInfo :=
  createClassInfosFrom 0 names

/-- `dummyPodQoSResourcesInfo` as built in `init()` of qos_resources_linux.go
(`Mutable` is left at its Go zero value `false`). -/
def dummyPodQoSResourcesInfo : List QoSResourceInfo :=
  [ ⟨"podres-1", false, createClassInfos ["qos-a", "qos-b", "qos-c", "qos-d"]⟩,
    ⟨"podres-2", false, createClassInfos ["cls-1", "cls-2", "cls-3", "cls-4", "cls-5"]⟩ ]

/-- `dummyContainerQoSResourcesInfo` as built in `init()` of qos_resources_linux.go. -/
def dummyContainerQoSResourcesInfo : List QoSResourceInfo :=
  [ ⟨"dummy-1", false, createClassInfos ["class-a", "class-b", "class-c", "class-d"]⟩,
    ⟨"dummy-2", false, createClassInfos ["platinum", "gold", "silver", "bronze"]⟩ ]

/-- `dummuGen` of `init()`: name-indexed class-name sets (Go `map[string]map[string]struct\x7b\x7d`). -/
def dummuGen (infos : List QoSResourceInfo) : List (String × List String) :=
  infos.map (fun info => (info.name, info.classes.map (fun c => c.name)))

/-- `dummyPodQoSResources` global of qos_resources_linux.go. -/
def dummyPodQoSResources : List (String × List String) :=
  dummuGen dummyPodQoSResourcesInfo

/-- `dummyContainerQoSResources` global of qos_resources_linux.go. -/
def dummyContainerQoSResources : List (String × List String) :=
  dummuGen dummyContainerQoSResourcesInfo

/-- Loop body of the validation loop of `generateContainerQoSResourceSpecOpts`
(qos_resources_linux.go lines 96-116) for one map entry `(r, c)`: the switch
(rdt/blockio fall through; other domains checked against the dummy registry),
then the empty-class check. Returns the error the loop body would return, if any. -/
def containerQoSEntryError (r c : String) : Option String :=
  let switchErr : Option String :=
    if r == QoSResourceRdt then none
    else if r == QoSResourceBlockio then none
    else
      match dummyContainerQoSResources.lookup r with
      | none => some ("unknown QoS resource type " ++ goQuote r)
      | some cr =>
        if cr.contains c then none
        else some ("unknown " ++ r ++ " class " ++ goQuote c)
  match switchErr with
  | some e => some e
  | none =>
    if c == "" then some ("empty class name not allowed for QoS resource type " ++ goQuote r)
    else none

/-- The `for r, c := range config.GetQosResources().GetClasses()` validation loop
of `generateContainerQoSResourceSpecOpts`: first entry error wins. -/
def validateContainerQoS : StrMap → Option String
  | [] => none
  | (r, c) :: rest =>
    match containerQoSEntryError r c with
    | some e => some e
    | none => validateContainerQoS rest

/-- Loop body of the validation loop of `generateSandboxQoSResourceSpecOpts`
(qos_resources_linux.go lines 54-72): `net` is skipped by the switch, other
domains are checked against the dummy pod registry, then the empty-class check. -/
def sandboxQoSEntryError (r c : String) : Option String :=
  let switchErr : Option String :=
    if r == QoSResourceNet then none
    else
      match dummyPodQoSResources.lookup r with
      | none => some ("unknown pod-level QoS resource type " ++ goQuote r)
      | some cr =>
        if cr.contains c then none
        else some ("unknown " ++ r ++ " class " ++ goQuote c)
  match switchErr with
  | some e => some e
  | none =>
    if c == "" then some ("empty class name not allowed for QoS resource type " ++ goQuote r)
    else none

/-- Validation loop of `generateSandboxQoSResourceSpecOpts`. -/
def validateSandboxQoS : StrMap → Option String
  | [] => none
  | (r, c) :: rest =>
    match sandboxQoSEntryError r c with
    | some e => some e
    | none => validateSandboxQoS rest

/-- `generateSandboxQoSResourceSpecOpts` of qos_resources_linux.go lines 51-74:
validates the sandbox assignment map and returns an empty SpecOpts list. -/
def generateSandboxQoSResourceSpecOpts (config : PodSandboxConfig) :
    Except String (List SpecOpt) :=
  match validateSandboxQoS config.qosResources with
  | some e => .error e
  | none => .ok []

/-- `generateContainerQoSResourceSpecOpts` of qos_resources_linux.go lines
92-145: validation loop, then RDT handling (error downgraded to a warning only
when `!tasks.RdtEnabled() && IgnoreRdtNotEnabledErrors`), then blockio handling
(likewise), appending `oci.WithRdt` / `oci.WithBlockIO` fragments for non-empty
resolved classes. -/
def generateContainerQoSResourceSpecOpts (env : Env) (config : ContainerConfig)
    (sandboxConfig : PodSandboxConfig) : Except String (List SpecOpt) :=
  match validateContainerQoS config.qosResources with
  | some e => .error e
  | none =>
    let rdtStage : Except String (List SpecOpt) :=
      match getContainerRdtClass env config sandboxConfig with
      | .error e =>
        if !env.rdtEnabled && env.ignoreRdtNotEnabledErrors then .ok []
        else .error ("failed to set RDT class: " ++ e)
      | .ok cls =>
        if cls != "" then .ok [SpecOpt.withRdt cls "" ""] else .ok []
    match rdtStage with
    | .error e => .error e
    | .ok specOpts =>
      match getContainerBlockioClass env config sandboxConfig with
      | .error e =>
        if !env.blockioEnabled && env.ignoreBlockIONotEnabledErrors then .ok specOpts
        else .error ("failed to set blockio class: " ++ e)
      | .ok cls =>
        if cls != "" then
          match env.blockioOci cls with
          | .ok linuxBlockIo => .ok (specOpts ++ [SpecOpt.withBlockIo linuxBlockIo])
          | .error e => .error e
        else .ok specOpts

/-- A JSON document, as produced by Go's `encoding/json` parser from a blob of
valid JSON. Object keys are assumed unique (Go's own encoder and CNI
configuration files produce unique keys). -/
inductive Json where
  | null
  | bool (b : Bool)
  | num (n : Int)
  | str (s : String)
  | arr (elems : List Json)
  | obj (fields : List (String × Json))

/-- Go `encoding/json` field matching against a struct field name or tag.  Go
first matches the key exactly and falls back to a case-insensitive match; the
keys in scope (`name`, `qos`, `capacity`, `bandwidth`) are modelled by their
lower-case exact match. -/
def jsonLookup (fields : List (String × Json)) (key : String) : Option Json :=
  (fields.find? (fun f => f.1 == key)).map (fun f => f.2)

/-- A CNI QoS class (`CniQoSClass` of qos_resources_linux.go); the `BandWidth`
pointer payload is kept opaque as the raw JSON object it was decoded from. -/
structure CniQoSClass where
  capacity : Nat
  bandWidth : Option Json

/-- Decoding of the `*cni.BandWidth` pointer field: JSON `null` decodes to a nil
pointer, an object decodes to a (kept-opaque) descriptor, anything else is a
type error of `encoding/json`. -/
def decodeBandWidth : Json → Except String (Option Json)
  | Json.null => .ok none
  | Json.obj fs => .ok (some (Json.obj fs))
  | _ => .error "failed to parse CNI config for QoS resources: BandWidth is not an object"

/-- Decoding of one `CniQoSClass` value by `encoding/json`: `null` leaves the Go
zero value, an object decodes `Capacity` (uint64; missing means 0) and
`BandWidth` (missing means nil), anything else is a type error. -/
def decodeCniQoSClass : Json → Except String CniQoSClass
  | Json.null => .ok ⟨0, none⟩
  | Json.obj fs =>
    (match jsonLookup fs "capacity" with
     | none => Except.ok 0
     | some (Json.num n) =>
       if 0 ≤ n then Except.ok n.toNat
       else Except.error "failed to parse CNI config for QoS resources: negative Capacity"
     | some _ => Except.error "failed to parse CNI config for QoS resources: Capacity is not a number"
    ).bind (fun cap =>
      match jsonLookup fs "bandwidth" with
      | none => Except.ok ⟨cap, none⟩
      | some bw => (decodeBandWidth bw).map (fun b => ⟨cap, b⟩))
  | _ => .error "failed to parse CNI config for QoS resources: class is not an object"

/-- Decoding of the entries of the `qos` object into the Go
`map[string]CniQoSClass` (kept as an association list). -/
def decodeQosEntries : List (String × Json) → Except String (List (String × CniQoSClass))
  | [] => .ok []
  | (k, v) :: rest =>
    match decodeCniQoSClass v with
    | .error e => .error e
    | .ok c => (decodeQosEntries rest).map (fun r => (k, c) :: r)

/-- Type check of the `Name string` field of the anonymous `tmp` struct of
`getCniQoSResources`: present and neither a string nor `null` is an
`encoding/json` type error. -/
def nameFieldError (fs : List (String × Json)) : Option String :=
  match jsonLookup fs "name" with
  | none => none
  | some (Json.str _) => none
  | some Json.null => none
  | some _ => some "failed to parse CNI config for QoS resources: name is not a string"

/-- `json.Unmarshal(rawConf, &tmp)` followed by `return tmp.Qos` for the
anonymous struct of `getCniQoSResources`: top-level `null` leaves the zero
value (nil map), a top-level object decodes the `name` and `qos` fields (an
absent or `null` `qos` key leaves the nil map), anything else is a type error. -/
def unmarshalCniQoS : Json → Except String (List (String × CniQoSClass))
  | Json.null => .ok []
  | Json.obj fs =>
    (match nameFieldError fs with
     | some e => Except.error e
     | none =>
       match jsonLookup fs "qos" with
       | none => Except.ok []
       | some Json.null => Except.ok []
       | some (Json.obj qfs) => decodeQosEntries qfs
       | some _ => Except.error "failed to parse CNI config for QoS resources: qos is not an object")
  | _ => .error "failed to parse CNI config for QoS resources: document is not an object"

/-- The part of one `cni.ConfNetwork` read by `getCniQoSResources`:
`Network.Config.Source`, pre-parsed — `none` models a source blob that is not
valid JSON (so that `json.Unmarshal` fails on it). -/
structure NetworkConfig where
  source : Option Json

/-- The part of the `cni.CNI` plugin read by `getCniQoSResources`:
`netplugin.GetConfig().Networks`. -/
structure CNIConfig where
  networks : List NetworkConfig

/-- Error of qos_resources_linux.go line 208. -/
def cniNilPluginMsg : String :=
  "BUG: unable to parse CNI QoS resources, nil plugin was given"

/-- Error of qos_resources_linux.go line 213. -/
def cniNoNetworksMsg : String :=
  "unable to parse CNI config for QoS resources: no networks configured"

/-- Error used when `json.Unmarshal` rejects a source blob that is not valid
JSON (qos_resources_linux.go line 230 wraps the `encoding/json` error). -/
def cniInvalidJsonMsg : String :=
  "failed to parse CNI config for QoS resources: invalid JSON"

/-- `getCniQoSResources` of qos_resources_linux.go lines 206-236: nil-plugin
check, `len(cniConfig.Networks) < 2` check, then unmarshalling of
`Networks[1].Config.Source`. -/
def getCniQoSResources (netplugin : Option CNIConfig) :
    Except String (List (String × CniQoSClass)) :=
  match netplugin with
  | none => .error cniNilPluginMsg
  | some cniConfig =>
    match cniConfig.networks with
    | _ :: nw :: _ =>
      (match nw.source with
       | none => Except.error cniInvalidJsonMsg
       | some rawConf => unmarshalCniQoS rawConf)
    | _ => .error cniNoNetworksMsg

/-- The `cniQoSResource` global as explicit state. -/
structure RegistryState where
  cniQoSResource : List (String × CniQoSClass)

/-- `updateCniQoSResources` of qos_resources_linux.go lines 197-204 as a state
transformer on the `cniQoSResource` global: on importer error the error is
returned and the global is not assigned; on success the parsed map is assigned
wholesale. -/
def updateCniQoSResources (netplugin : Option CNIConfig) (st : RegistryState) :
    Except String Unit × RegistryState :=
  match getCniQoSResources netplugin with
  | .error e => (.error e, st)
  | .ok qos => (.ok (), ⟨qos⟩)

/-- `GetPodQoSResourcesInfo` of qos_resources_linux.go lines 148-166, with the
`cniQoSResource` global passed explicitly. -/
def GetPodQoSResourcesInfo (cniQoSResource : List (String × CniQoSClass)) :
    List QoSResourceInfo :=
  (if cniQoSResource.length > 0 then
    [ ⟨QoSResourceNet, false,
        cniQoSResource.map (fun nc => ⟨nc.1, nc.2.capacity⟩)⟩ ]
  else [])
  ++ dummyPodQoSResourcesInfo

/-- `GetContainerQoSResourcesInfo` of qos_resources_linux.go lines 169-195. -/
def GetContainerQoSResourcesInfo (env : Env) : List QoSResourceInfo :=
  (if env.rdtClasses.length > 0 then
    [⟨QoSResourceRdt, false, createClassInfos env.rdtClasses⟩]
  else [])
  ++ (if env.blockioClasses.length > 0 then
    [⟨QoSResourceBlockio, false, createClassInfos env.blockioClasses⟩]
  else [])
  ++ dummyContainerQoSResourcesInfo

/-- A concrete environment (both domains enabled) for evaluating the embedding
on closed inputs. -/
def testEnv : Env :=
  ⟨true, true, ["gold", "silver"], ["fast", "slow"],
   fun _ _ _ => .ok "", fun _ _ _ => .ok "", fun _ => .ok ⟨1⟩, false, false⟩

/-- A concrete environment with both domains disabled and empty class lists. -/
def disabledEnv : Env :=
  ⟨false, false, [], [],
   fun _ _ _ => .ok "", fun _ _ _ => .ok "", fun _ => .ok ⟨0⟩, false, false⟩

/-- A container config whose QoS assignment map holds two invalid entries; the
list order models one of Go's possible map-range orders. -/
def permConfigA : ContainerConfig :=
  ⟨"ctr", [], [("bogus", "x"), ("dummy-1", "nope")], []⟩

/-- The same Go map as `permConfigA.qosResources` ranged over in the other order. -/
def permConfigB : ContainerConfig :=
  ⟨"ctr", [], [("dummy-1", "nope"), ("bogus", "x")], []⟩

/-- An empty sandbox config. -/
def emptySandbox : PodSandboxConfig := ⟨[], []⟩

/-- A CNI plugin whose second network's config blob is the valid JSON document
`obj name 42` — no `qos` key at top level. -/
def cniPluginNoQos : Option CNIConfig :=
  some ⟨[⟨none⟩, ⟨some (Json.obj [("name", Json.num 42)])⟩]⟩


/-! ## Helper lemmas -/

/-- The head of the data of a string append is the head of a non-empty prefix. -/
theorem data_head?_append (s t : String) (c : Char) (h : s.data.head? = some c) :
    (s ++ t).data.head? = some c := by
  cases hs : s.data with
  | nil => rw [hs] at h; cases h
  | cons a as =>
    rw [hs] at h
    have : (s ++ t).data = a :: (as ++ t.data) := by
      rw [String.data_append, hs]; rfl
    rw [this]
    simpa using h

/-- The RDT "disabled" error message starts with `R` whatever the names are. -/
theorem rdtDisabledMsg_head (n c : String) : (rdtDisabledMsg n c).data.head? = some 'R' := by
  unfold rdtDisabledMsg
  apply data_head?_append
  apply data_head?_append
  apply data_head?_append
  decide

/-- The RDT "invalid class" error message starts with `i`. -/
theorem rdtInvalidMsg_head (c : String) : (rdtInvalidMsg c).data.head? = some 'i' := by
  unfold rdtInvalidMsg
  apply data_head?_append
  apply data_head?_append
  decide

/-- The blockio "disabled" error message starts with `b`. -/
theorem blockioDisabledMsg_head (n c : String) :
    (blockioDisabledMsg n c).data.head? = some 'b' := by
  unfold blockioDisabledMsg
  apply data_head?_append
  apply data_head?_append
  apply data_head?_append
  decide

/-- The blockio "invalid class" error message starts with `i`. -/
theorem blockioInvalidMsg_head (c : String) : (blockioInvalidMsg c).data.head? = some 'i' := by
  unfold blockioInvalidMsg
  apply data_head?_append
  apply data_head?_append
  decide

/-- The RDT disabled and unknown-class errors are distinct for all inputs. -/
theorem rdtMsgs_ne (n c c' : String) : rdtDisabledMsg n c ≠ rdtInvalidMsg c' := by
  intro h
  have h1 := rdtDisabledMsg_head n c
  rw [h, rdtInvalidMsg_head c'] at h1
  cases h1

/-- The blockio disabled and unknown-class errors are distinct for all inputs. -/
theorem blockioMsgs_ne (n c c' : String) : blockioDisabledMsg n c ≠ blockioInvalidMsg c' := by
  intro h
  have h1 := blockioDisabledMsg_head n c
  rw [h, blockioInvalidMsg_head c'] at h1
  cases h1


/-! ## C1 -/

/-- C1: if the structured assignment map (class resources for RDT, QoS resources
for blockio) contains an entry for the domain, the resolver takes that entry's
class as the candidate (its result is the domain check applied to that class)
and never invokes the legacy annotation parser (its result is invariant under
replacing the parser), with no validity requirement on the structured class. -/
theorem structuredAssignmentWins
    (env : Env) (f g : AnnotParser)
    (config : ContainerConfig) (sandboxConfig : PodSandboxConfig)
    (rcls bcls : String)
    (hr : config.classResources.lookup QoSResourceRdt = some rcls)
    (hb : config.qosResources.lookup QoSResourceBlockio = some bcls) :
    getContainerRdtClass { env with rdtAnnot := f } config sandboxConfig =
      rdtClassCheck env config.name rcls ∧
    getContainerRdtClass { env with rdtAnnot := f } config sandboxConfig =
      getContainerRdtClass { env with rdtAnnot := g } config sandboxConfig ∧
    getContainerBlockioClass { env with blockioAnnot := f } config sandboxConfig =
      blockioClassCheck env config.name bcls ∧
    getContainerBlockioClass { env with blockioAnnot := f } config sandboxConfig =
      getContainerBlockioClass { env with blockioAnnot := g } config sandboxConfig := by
  refine ⟨?_, ?_, ?_, ?_⟩ <;>
    simp [getContainerRdtClass, getContainerBlockioClass, hr, hb,
      rdtClassCheck, blockioClassCheck, classExists]

/-- Witness for C1 at a concrete input: structured `rdt=gold`, `blockio=fast`;
a parser claiming `silver` (or failing outright) is ignored. -/
theorem structuredAssignmentWins_witness :
    ([("rdt", "gold")] : StrMap).lookup QoSResourceRdt = some "gold" ∧
    ([("blockio", "fast")] : StrMap).lookup QoSResourceBlockio = some "fast" ∧
    getContainerRdtClass { testEnv with rdtAnnot := fun _ _ _ => .ok "silver" }
      ⟨"c", [("rdt", "gold")], [("blockio", "fast")], []⟩ emptySandbox =
      rdtClassCheck testEnv "c" "gold" := by
  refine ⟨by decide, by decide, ?_⟩
  exact (structuredAssignmentWins testEnv (fun _ _ _ => .ok "silver")
    (fun _ _ _ => .error "boom")
    ⟨"c", [("rdt", "gold")], [("blockio", "fast")], []⟩ emptySandbox
    "gold" "fast" (by decide) (by decide)).1


/-! ## C4 -/

/-- C4: for a non-empty candidate in a disabled domain whose class is also
absent from the registry, the resolver returns the domain-disabled error, not
the unknown-class error: the enablement check runs before the existence check
(and the two error messages are distinct for every input). -/
theorem disabledCheckedBeforeUnknownClass
    (env : Env) (config : ContainerConfig) (sandboxConfig : PodSandboxConfig)
    (rcls bcls : String)
    (hrne : rcls ≠ "") (hrdis : env.rdtEnabled = false)
    (hrabs : env.rdtClasses.contains rcls = false)
    (hbne : bcls ≠ "") (hbdis : env.blockioEnabled = false)
    (hbabs : classExists env bcls = false)
    (hr : config.classResources.lookup QoSResourceRdt = some rcls)
    (hb : config.qosResources.lookup QoSResourceBlockio = some bcls) :
    rdtClassCheck env config.name rcls = .error (rdtDisabledMsg config.name rcls) ∧
    getContainerRdtClass env config sandboxConfig =
      .error (rdtDisabledMsg config.name rcls) ∧
    rdtDisabledMsg config.name rcls ≠ rdtInvalidMsg rcls ∧
    blockioClassCheck env config.name bcls = .error (blockioDisabledMsg config.name bcls) ∧
    getContainerBlockioClass env config sandboxConfig =
      .error (blockioDisabledMsg config.name bcls) ∧
    blockioDisabledMsg config.name bcls ≠ blockioInvalidMsg bcls := by
  have hrc : rdtClassCheck env config.name rcls =
      .error (rdtDisabledMsg config.name rcls) := by
    simp [rdtClassCheck, hrne, hrdis]
  have hbc : blockioClassCheck env config.name bcls =
      .error (blockioDisabledMsg config.name bcls) := by
    simp [blockioClassCheck, hbne, hbdis]
  refine ⟨hrc, ?_, rdtMsgs_ne _ _ _, hbc, ?_, blockioMsgs_ne _ _ _⟩
  · simp [getContainerRdtClass, hr, hrc]
  · simp [getContainerBlockioClass, hb, hbc]

/-- Witness for C4 at a concrete input: both domains disabled, classes not in
the (empty) registries, resolvers return the disabled errors. -/
theorem disabledCheckedBeforeUnknownClass_witness :
    getContainerRdtClass disabledEnv
      ⟨"c", [("rdt", "gold")], [("blockio", "fast")], []⟩ emptySandbox =
      .error (rdtDisabledMsg "c" "gold") := by
  exact (disabledCheckedBeforeUnknownClass disabledEnv
    ⟨"c", [("rdt", "gold")], [("blockio", "fast")], []⟩ emptySandbox
    "gold" "fast" (by decide) (by decide) (by decide)
    (by decide) (by decide) (by decide) (by decide) (by decide)).2.1


/-! ## C5 -/

/-- C5: with no structured assignment for a domain and a legacy parser yielding
the empty string, the resolver returns the empty string with no error, and
`generateContainerQoSResourceSpecOpts` appends no spec fragment for that domain
(here: both domains empty, so the SpecOpts list is empty). -/
theorem emptyMeansAbsent
    (env : Env) (config : ContainerConfig) (sandboxConfig : PodSandboxConfig)
    (hr : config.classResources.lookup QoSResourceRdt = none)
    (hra : env.rdtAnnot config.name config.annotations sandboxConfig.annotations = .ok "")
    (hb : config.qosResources.lookup QoSResourceBlockio = none)
    (hba : env.blockioAnnot config.name config.annotations sandboxConfig.annotations = .ok "")
    (hv : validateContainerQoS config.qosResources = none) :
    getContainerRdtClass env config sandboxConfig = .ok "" ∧
    getContainerBlockioClass env config sandboxConfig = .ok "" ∧
    generateContainerQoSResourceSpecOpts env config sandboxConfig = .ok [] := by
  have h1 : getContainerRdtClass env config sandboxConfig = .ok "" := by
    simp [getContainerRdtClass, hr, hra, rdtClassCheck]
  have h2 : getContainerBlockioClass env config sandboxConfig = .ok "" := by
    simp [getContainerBlockioClass, hb, hba, blockioClassCheck]
  refine ⟨h1, h2, ?_⟩
  simp [generateContainerQoSResourceSpecOpts, hv, h1, h2]

/-- Witness for C5 at a concrete input: no structured assignments, parsers
yield empty, zero spec fragments. -/
theorem emptyMeansAbsent_witness :
    generateContainerQoSResourceSpecOpts testEnv ⟨"c", [], [], []⟩ emptySandbox = .ok [] := by
  exact (emptyMeansAbsent testEnv ⟨"c", [], [], []⟩ emptySandbox
    rfl rfl rfl rfl rfl).2.2


/-! ## C2 -/

/-- C2: when a resolver fails while its domain is enabled — in particular on
the unknown-class error, which is only produced with the domain enabled —
`generateContainerQoSResourceSpecOpts` returns the wrapped error (hence no spec
fragments), for every value of the `IgnoreRdtNotEnabledErrors` /
`IgnoreBlockIONotEnabledErrors` policy flags: the downgrade condition
`!tasks.RdtEnabled() && flag` (resp. blockio) can only fire for a disabled
domain. -/
theorem unknownClassNeverDowngraded
    (env : Env) (config : ContainerConfig) (sandboxConfig : PodSandboxConfig)
    (e e' rcls : String)
    (hv : validateContainerQoS config.qosResources = none) :
    (env.rdtEnabled = true →
      getContainerRdtClass env config sandboxConfig = .error e →
      generateContainerQoSResourceSpecOpts env config sandboxConfig =
        .error ("failed to set RDT class: " ++ e)) ∧
    (env.blockioEnabled = true →
      getContainerRdtClass env config sandboxConfig = .ok rcls →
      getContainerBlockioClass env config sandboxConfig = .error e' →
      generateContainerQoSResourceSpecOpts env config sandboxConfig =
        .error ("failed to set blockio class: " ++ e')) := by
  constructor
  · intro hen herr
    simp [generateContainerQoSResourceSpecOpts, hv, herr, hen]
  · intro hen hok herr
    by_cases hne : rcls = ""
    · subst hne
      simp [generateContainerQoSResourceSpecOpts, hv, hok, herr, hen]
    · simp [generateContainerQoSResourceSpecOpts, hv, hok, herr, hen, hne]

/-- Witness for C2 at a concrete input: both domains enabled, the structured
RDT class `"nonexistent"` is not in the registry, and the unknown-class error
is returned even with both ignore flags set. -/
theorem unknownClassNeverDowngraded_witness :
    generateContainerQoSResourceSpecOpts
      { testEnv with ignoreRdtNotEnabledErrors := true,
                     ignoreBlockIONotEnabledErrors := true }
      ⟨"c", [("rdt", "nonexistent")], [], []⟩ emptySandbox =
      .error ("failed to set RDT class: " ++ rdtInvalidMsg "nonexistent") := by
  exact (unknownClassNeverDowngraded
    { testEnv with ignoreRdtNotEnabledErrors := true,
                   ignoreBlockIONotEnabledErrors := true }
    ⟨"c", [("rdt", "nonexistent")], [], []⟩ emptySandbox
    (rdtInvalidMsg "nonexistent") "" "" rfl).1 rfl (by
      simp [getContainerRdtClass, rdtClassCheck, testEnv]
      rfl)


/-! ## C3 -/

/-- C3: `updateCniQoSResources` is fail-closed — on any importer error (nil
plugin, fewer than two networks, unparseable blob) it returns the error and
leaves the `cniQoSResource` registry exactly as it was; on success the parsed
class map replaces the previous registry wholesale (the new state does not
depend on the old one). -/
theorem updateCniFailClosedReplacesWholesale
    (p : Option CNIConfig) (st st' : RegistryState) :
    (∀ e, getCniQoSResources p = .error e →
      updateCniQoSResources p st = (.error e, st)) ∧
    (∀ qos, getCniQoSResources p = .ok qos →
      updateCniQoSResources p st = (.ok (), ⟨qos⟩) ∧
      (updateCniQoSResources p st).2 = (updateCniQoSResources p st').2) ∧
    updateCniQoSResources none st = (.error cniNilPluginMsg, st) ∧
    (∀ cfg : CNIConfig, cfg.networks.length < 2 →
      updateCniQoSResources (some cfg) st = (.error cniNoNetworksMsg, st)) ∧
    (∀ (nw0 nw1 : NetworkConfig) (rest : List NetworkConfig), nw1.source = none →
      updateCniQoSResources (some ⟨nw0 :: nw1 :: rest⟩) st =
        (.error cniInvalidJsonMsg, st)) := by
  refine ⟨?_, ?_, ?_, ?_, ?_⟩
  · intro e he
    simp [updateCniQoSResources, he]
  · intro qos hq
    simp [updateCniQoSResources, hq]
  · simp [updateCniQoSResources, getCniQoSResources]
  · intro cfg hlen
    match hnet : cfg.networks with
    | [] => simp [updateCniQoSResources, getCniQoSResources, hnet]
    | [a] => simp [updateCniQoSResources, getCniQoSResources, hnet]
    | a :: b :: rest =>
      rw [hnet] at hlen
      simp only [List.length_cons] at hlen
      exact absurd hlen (by omega)
  · intro nw0 nw1 rest hsrc
    simp [updateCniQoSResources, getCniQoSResources, hsrc]

/-- Witness for C3 at a concrete input: a malformed blob (source not valid
JSON) leaves a non-trivial registry untouched. -/
theorem updateCniFailClosedReplacesWholesale_witness :
    updateCniQoSResources (some ⟨[⟨none⟩, ⟨none⟩]⟩) ⟨[("A", ⟨1, none⟩), ("B", ⟨2, none⟩)]⟩ =
      (.error cniInvalidJsonMsg, ⟨[("A", ⟨1, none⟩), ("B", ⟨2, none⟩)]⟩) := by
  exact (updateCniFailClosedReplacesWholesale (some ⟨[⟨none⟩, ⟨none⟩]⟩)
    ⟨[("A", ⟨1, none⟩), ("B", ⟨2, none⟩)]⟩ ⟨[]⟩).2.2.2.2 ⟨none⟩ ⟨none⟩ [] rfl


/-! ## C6 -/

/-- C6: discovery reports the RDT (resp. blockio) entry exactly when the
collaborator's class list is non-empty, and the `net` entry exactly when the
network class map is non-empty; with an empty class list no entry of that name
appears at all. -/
theorem discoveryOmitsEmptyDomains
    (env : Env) (cni : List (String × CniQoSClass)) :
    (env.rdtClasses = [] →
      ∀ info ∈ GetContainerQoSResourcesInfo env, info.name ≠ QoSResourceRdt) ∧
    (env.rdtClasses ≠ [] →
      QoSResourceRdt ∈ (GetContainerQoSResourcesInfo env).map (fun i => i.name)) ∧
    (env.blockioClasses = [] →
      ∀ info ∈ GetContainerQoSResourcesInfo env, info.name ≠ QoSResourceBlockio) ∧
    (env.blockioClasses ≠ [] →
      QoSResourceBlockio ∈ (GetContainerQoSResourcesInfo env).map (fun i => i.name)) ∧
    (cni = [] → ∀ info ∈ GetPodQoSResourcesInfo cni, info.name ≠ QoSResourceNet) ∧
    (cni ≠ [] →
      QoSResourceNet ∈ (GetPodQoSResourcesInfo cni).map (fun i => i.name)) := by
  refine ⟨?_, ?_, ?_, ?_, ?_, ?_⟩
  · intro hemp info hmem
    rw [GetContainerQoSResourcesInfo, hemp] at hmem
    simp [dummyContainerQoSResourcesInfo] at hmem
    rcases hmem with ⟨h0, h⟩ | h | h <;> subst h <;>
      simp [QoSResourceRdt, QoSResourceBlockio]
  · intro hne
    rw [GetContainerQoSResourcesInfo]
    have : env.rdtClasses.length > 0 := List.length_pos.mpr hne
    simp [this]
  · intro hemp info hmem
    rw [GetContainerQoSResourcesInfo, hemp] at hmem
    simp [dummyContainerQoSResourcesInfo] at hmem
    rcases hmem with ⟨h0, h⟩ | h | h <;> subst h <;>
      simp [QoSResourceRdt, QoSResourceBlockio]
  · intro hne
    rw [GetContainerQoSResourcesInfo]
    have : env.blockioClasses.length > 0 := List.length_pos.mpr hne
    simp [this]
  · intro hemp info hmem
    rw [GetPodQoSResourcesInfo, hemp] at hmem
    simp [dummyPodQoSResourcesInfo] at hmem
    rcases hmem with h | h <;> subst h <;> simp [QoSResourceNet]
  · intro hne
    rw [GetPodQoSResourcesInfo]
    have : cni.length > 0 := List.length_pos.mpr hne
    simp [this]

/-- Witness for C6 at a concrete input: with an empty blockio class list the
container-level discovery has no `blockio` entry. -/
theorem discoveryOmitsEmptyDomains_witness :
    ∀ info ∈ GetContainerQoSResourcesInfo { testEnv with blockioClasses := [] },
      info.name ≠ QoSResourceBlockio := by
  exact (discoveryOmitsEmptyDomains { testEnv with blockioClasses := [] } []).2.2.1 rfl


/-! ## C7 -/

/-- C7 counterexample: the blob `obj name 42` is valid JSON, the plugin has two
networks configured, and the top-level `qos` key is absent — yet the importer
fails, because `json.Unmarshal` rejects the non-string `name` field.  So "for
every valid-JSON blob, absent `qos` means success with zero classes" is false
as stated. -/
theorem cniAbsentQos_counterexample :
    jsonLookup [("name", Json.num 42)] "qos" = none ∧
    getCniQoSResources cniPluginNoQos =
      .error "failed to parse CNI config for QoS resources: name is not a string" := by
  exact ⟨rfl, rfl⟩

/-- C7 amended: for every configuration blob that is a valid JSON object whose
remaining fields decode (in particular any `name` field is a string or null),
with at least two networks configured, an absent top-level `qos` key makes the
importer succeed with zero classes rather than return an error. -/
theorem cniAbsentQosMeansZeroClasses
    (nw0 : NetworkConfig) (rest : List NetworkConfig) (fs : List (String × Json))
    (hname : nameFieldError fs = none)
    (hqos : jsonLookup fs "qos" = none) :
    getCniQoSResources (some ⟨nw0 :: ⟨some (Json.obj fs)⟩ :: rest⟩) = .ok [] := by
  simp [getCniQoSResources, unmarshalCniQoS, hname, hqos]

/-- Witness for the amended C7 at a concrete input: a two-network plugin whose
blob is `obj name "mynet"` (no `qos` key) imports successfully with zero
classes. -/
theorem cniAbsentQosMeansZeroClasses_witness :
    getCniQoSResources (some ⟨[⟨none⟩, ⟨some (Json.obj [("name", Json.str "mynet")])⟩]⟩) =
      .ok [] := by
  exact cniAbsentQosMeansZeroClasses ⟨none⟩ [] [("name", Json.str "mynet")] rfl rfl


/-! ## C8 -/

/-- Association-list lookup is invariant under permutation when the keys are
distinct (as the keys of a Go map are). -/
theorem lookup_eq_of_perm {β : Type} {l l' : List (String × β)}
    (hp : List.Perm l l') (k : String) :
    (l.map Prod.fst).Nodup → l.lookup k = l'.lookup k := by
  induction hp with
  | nil => intro _; rfl
  | cons x hp ih =>
    intro hn
    obtain ⟨a, b⟩ := x
    simp only [List.map_cons, List.nodup_cons] at hn
    cases hk : k == a <;> simp only [List.lookup, hk]
    exact ih hn.2
  | swap x y t =>
    intro hn
    obtain ⟨a, b⟩ := x
    obtain ⟨c, d⟩ := y
    simp only [List.map_cons, List.nodup_cons, List.mem_cons] at hn
    have hca : c ≠ a := fun h => hn.1 (Or.inl h)
    by_cases hkc : k = c
    · subst hkc
      have h1 : (k == k) = true := by simp
      have h2 : (k == a) = false := by simp [hca]
      simp only [List.lookup, h1, h2]
    · by_cases hka : k = a
      · subst hka
        have h1 : (k == k) = true := by simp
        have h2 : (k == c) = false := by simp [hkc]
        simp only [List.lookup, h1, h2]
      · have h1 : (k == c) = false := by simp [hkc]
        have h2 : (k == a) = false := by simp [hka]
        simp only [List.lookup, h1, h2]
  | trans h₁ h₂ ih₁ ih₂ =>
    intro hn
    exact (ih₁ hn).trans (ih₂ ((h₁.map Prod.fst).nodup hn))

/-- The container validation loop returns the first entry error. -/
theorem validateContainerQoS_eq_head (l : StrMap) :
    validateContainerQoS l =
      (l.filterMap (fun rc => containerQoSEntryError rc.1 rc.2)).head? := by
  induction l with
  | nil => rfl
  | cons rc rest ih =>
    obtain ⟨r, c⟩ := rc
    cases h : containerQoSEntryError r c <;>
      simp [validateContainerQoS, List.filterMap_cons, h, ih]

/-- The sandbox validation loop returns the first entry error. -/
theorem validateSandboxQoS_eq_head (l : StrMap) :
    validateSandboxQoS l =
      (l.filterMap (fun rc => sandboxQoSEntryError rc.1 rc.2)).head? := by
  induction l with
  | nil => rfl
  | cons rc rest ih =>
    obtain ⟨r, c⟩ := rc
    cases h : sandboxQoSEntryError r c <;>
      simp [validateSandboxQoS, List.filterMap_cons, h, ih]

/-- Permuted lists of length at most one are equal. -/
theorem perm_eq_of_length_le_one {α : Type} {l l' : List α}
    (hp : List.Perm l l') (hl : l.length ≤ 1) : l = l' := by
  cases l with
  | nil => exact hp.nil_eq
  | cons a t =>
    cases t with
    | nil => exact hp.singleton_eq
    | cons b t' => exact absurd hl (by simp)

/-- C8 counterexample: one container config whose QoS assignment map holds two
invalid entries.  `permConfigA.qosResources` and `permConfigB.qosResources` are
permutations of each other — the same Go map ranged over in two of the orders
Go's randomized map iteration can produce — yet
`generateContainerQoSResourceSpecOpts` returns a different error message for
each, so the error is not reproducible for a fixed input. -/
theorem qosSpecOptsOrder_counterexample :
    List.Perm permConfigA.qosResources permConfigB.qosResources ∧
    generateContainerQoSResourceSpecOpts testEnv permConfigA emptySandbox =
      .error "unknown QoS resource type \"bogus\"" ∧
    generateContainerQoSResourceSpecOpts testEnv permConfigB emptySandbox =
      .error "unknown dummy-1 class \"nope\"" := by
  exact ⟨by decide, rfl, rfl⟩

/-- C8 amended: spec-opts generation is deterministic once the enumeration
order of the assignment map is fixed, and is even independent of the
enumeration order whenever at most one entry of the map is invalid; with two or
more invalid entries the error message depends on the order in which Go's
randomized map range visits them (see the counterexample). -/
theorem qosSpecOptsOrderInsensitive
    (env : Env) (cfg cfg' : ContainerConfig) (sb : PodSandboxConfig)
    (scfg scfg' : PodSandboxConfig)
    (hname : cfg.name = cfg'.name)
    (hcr : cfg.classResources = cfg'.classResources)
    (ha : cfg.annotations = cfg'.annotations)
    (hp : List.Perm cfg.qosResources cfg'.qosResources)
    (hk : (cfg.qosResources.map Prod.fst).Nodup)
    (hone : (cfg.qosResources.filterMap
      (fun rc => containerQoSEntryError rc.1 rc.2)).length ≤ 1)
    (hsp : List.Perm scfg.qosResources scfg'.qosResources)
    (hsone : (scfg.qosResources.filterMap
      (fun rc => sandboxQoSEntryError rc.1 rc.2)).length ≤ 1) :
    generateContainerQoSResourceSpecOpts env cfg sb =
      generateContainerQoSResourceSpecOpts env cfg' sb ∧
    generateSandboxQoSResourceSpecOpts scfg = generateSandboxQoSResourceSpecOpts scfg' := by
  have hval : validateContainerQoS cfg.qosResources =
      validateContainerQoS cfg'.qosResources := by
    rw [validateContainerQoS_eq_head, validateContainerQoS_eq_head,
      perm_eq_of_length_le_one (hp.filterMap _) hone]
  have hrdt : getContainerRdtClass env cfg sb = getContainerRdtClass env cfg' sb := by
    unfold getContainerRdtClass
    rw [hname, hcr, ha]
  have hbio : getContainerBlockioClass env cfg sb = getContainerBlockioClass env cfg' sb := by
    unfold getContainerBlockioClass
    rw [hname, ha, lookup_eq_of_perm hp QoSResourceBlockio hk]
  have hsval : validateSandboxQoS scfg.qosResources =
      validateSandboxQoS scfg'.qosResources := by
    rw [validateSandboxQoS_eq_head, validateSandboxQoS_eq_head,
      perm_eq_of_length_le_one (hsp.filterMap _) hsone]
  constructor
  · unfold generateContainerQoSResourceSpecOpts
    rw [hval, hrdt, hbio]
  · unfold generateSandboxQoSResourceSpecOpts
    rw [hsval]

/-- Witness for the amended C8 at a concrete input: a map with one valid dummy
entry, compared against itself under the identity permutation. -/
theorem qosSpecOptsOrderInsensitive_witness :
    generateContainerQoSResourceSpecOpts testEnv
        ⟨"c", [], [("dummy-1", "class-a")], []⟩ emptySandbox =
      generateContainerQoSResourceSpecOpts testEnv
        ⟨"c", [], [("dummy-1", "class-a")], []⟩ emptySandbox := by
  exact (qosSpecOptsOrderInsensitive testEnv
    ⟨"c", [], [("dummy-1", "class-a")], []⟩ ⟨"c", [], [("dummy-1", "class-a")], []⟩
    emptySandbox ⟨[("podres-1", "qos-a")], []⟩ ⟨[("podres-1", "qos-a")], []⟩
    rfl rfl rfl (by decide) (by decide) (by decide) (by decide) (by decide)).1


/-! ## C9 -/

/-- The capacities produced by the indexed loop of `createClassInfos` are the
consecutive indices starting at `i`. -/
theorem createClassInfosFrom_map_capacity (names : List String) (i : Nat) :
    (createClassInfosFrom i names).map (fun c => c.capacity) =
      List.range' i names.length := by
  induction names generalizing i with
  | nil => rfl
  | cons n rest ih => simp [createClassInfosFrom, List.range'_succ, ih]

/-- `createClassInfos` preserves the length of the name list. -/
theorem createClassInfosFrom_length (names : List String) (i : Nat) :
    (createClassInfosFrom i names).length = names.length := by
  induction names generalizing i with
  | nil => rfl
  | cons n rest ih => simp [createClassInfosFrom, ih]

/-- The capacities of a `createClassInfos` result are its list positions. -/
theorem createClassInfos_capacities (l : List String) :
    (createClassInfos l).map (fun c => c.capacity) =
      List.range (createClassInfos l).length := by
  rw [createClassInfos, createClassInfosFrom_map_capacity, createClassInfosFrom_length,
    List.range_eq_range']

/-- C9: `createClassInfos` reports each class's capacity as its zero-based
position in the input list; consequently every domain reported by
container-level discovery (RDT, blockio and the dummy domains) carries
position capacities, and the first class of any such domain has capacity 0. -/
theorem capacityIsListPosition (names : List String) (env : Env) :
    ((createClassInfos names).map (fun c => c.capacity) = List.range names.length) ∧
    (∀ info ∈ GetContainerQoSResourcesInfo env,
      info.classes.map (fun c => c.capacity) = List.range info.classes.length) ∧
    (∀ n rest, names = n :: rest → (createClassInfos names).head? = some ⟨n, 0⟩) := by
  refine ⟨?_, ?_, ?_⟩
  · rw [createClassInfos, createClassInfosFrom_map_capacity, List.range_eq_range']
  · intro info hmem
    rw [GetContainerQoSResourcesInfo] at hmem
    simp [dummyContainerQoSResourcesInfo] at hmem
    rcases hmem with ⟨_, h⟩ | ⟨_, h⟩ | h | h <;> subst h <;>
      exact createClassInfos_capacities _
  · intro n rest h
    subst h
    rfl

/-- Witness for C9 at a concrete input: the first of the configured RDT classes
always reports capacity 0, not a configured capacity count. -/
theorem capacityIsListPosition_witness :
    (createClassInfos ["gold", "silver"]).head? = some ⟨"gold", 0⟩ := by
  exact (capacityIsListPosition ["gold", "silver"] testEnv).2.2 "gold" ["silver"] rfl


/-! ## C10 -/

/-- C10: discovery always includes the hard-coded placeholder domains —
`dummy-1`/`dummy-2` at container level, `podres-1`/`podres-2` at pod level —
for every registry state, so neither discovery result is ever empty; and
structured assignments naming these placeholder domains with their fixed
classes are accepted by the validation loops. -/
theorem placeholderDomainsAlwaysPresent (env : Env) (cni : List (String × CniQoSClass)) :
    "dummy-1" ∈ (GetContainerQoSResourcesInfo env).map (fun i => i.name) ∧
    "dummy-2" ∈ (GetContainerQoSResourcesInfo env).map (fun i => i.name) ∧
    GetContainerQoSResourcesInfo env ≠ [] ∧
    "podres-1" ∈ (GetPodQoSResourcesInfo cni).map (fun i => i.name) ∧
    "podres-2" ∈ (GetPodQoSResourcesInfo cni).map (fun i => i.name) ∧
    GetPodQoSResourcesInfo cni ≠ [] ∧
    containerQoSEntryError "dummy-1" "class-a" = none ∧
    containerQoSEntryError "dummy-2" "gold" = none ∧
    sandboxQoSEntryError "podres-1" "qos-a" = none ∧
    sandboxQoSEntryError "podres-2" "cls-1" = none ∧
    generateContainerQoSResourceSpecOpts testEnv
      ⟨"c", [], [("dummy-1", "class-a")], []⟩ emptySandbox = .ok [] ∧
    generateSandboxQoSResourceSpecOpts ⟨[("podres-1", "qos-a")], []⟩ = .ok [] := by
  refine ⟨?_, ?_, ?_, ?_, ?_, ?_, by decide, by decide, by decide, by decide, rfl, rfl⟩
  · simp [GetContainerQoSResourcesInfo, dummyContainerQoSResourcesInfo]
  · simp [GetContainerQoSResourcesInfo, dummyContainerQoSResourcesInfo]
  · intro h
    have hlen := congrArg List.length h
    simp [GetContainerQoSResourcesInfo, List.length_append,
      dummyContainerQoSResourcesInfo] at hlen
  · simp [GetPodQoSResourcesInfo, dummyPodQoSResourcesInfo]
  · simp [GetPodQoSResourcesInfo, dummyPodQoSResourcesInfo]
  · intro h
    have hlen := congrArg List.length h
    simp [GetPodQoSResourcesInfo, List.length_append,
      dummyPodQoSResourcesInfo] at hlen

/-- Witness for C10 at a concrete input: the placeholder domain `dummy-1` is
reported even in an environment with empty RDT/blockio class lists. -/
theorem placeholderDomainsAlwaysPresent_witness :
    "dummy-1" ∈ (GetContainerQoSResourcesInfo disabledEnv).map (fun i => i.name) := by
  exact (placeholderDomainsAlwaysPresent disabledEnv []).1

end CriQoS
